import Mathlib

/-!
Verification development for the menyoki capture tool: a shallow embedding
of the window-selection engine (`src/x11/display.rs`), the input-state
cancel check (`src/util/state.rs`), the GIF frame collector
(`src/x11/image/gif.rs`) and the GIF splitting routine (`src/app.rs`),
together with theorems settling the specification claims about them.

Machine integers of the source (`u32`, `u64`) are embedded as `Nat` with
explicit `2 ^ 32` bounds where the source uses checked arithmetic.
Rust panics (`expect`) are embedded as an explicit `panicked` outcome.
-/

namespace Menyoki

/-- Size of the `u32` value space; `checked_add`/`checked_sub` on `u32`
overflow exactly when the result leaves `[0, u32Size)`. -/
def u32Size : Nat := 2 ^ 32

/-- `u32::checked_add`: `some (a + b)` unless the sum overflows. -/
def checkedAdd (a b : Nat) : Option Nat :=
  if a + b < u32Size then some (a + b) else none

/-- `u32::checked_sub`: `some (a - b)` unless the subtraction underflows. -/
def checkedSub (a b : Nat) : Option Nat :=
  if b ≤ a then some (a - b) else none

/-- The key codes of the `device_query` crate that the embedded code
inspects: modifier keys, cancel keys, the reset key `R`, arrow and
vim-style direction keys, and the digit keys `Key0`..`Key9` (whose debug
representation contains `Key`). -/
inductive Keycode where
  | Escape | D | LControl | LAlt | LShift | R
  | Up | Down | Left | Right | H | J | K | L
  | Key0 | Key1 | Key2 | Key3 | Key4 | Key5 | Key6 | Key7 | Key8 | Key9
  deriving DecidableEq, Repr

/-- `InputState::check_keys` (src/util/state.rs, lines 46-50): the cancel
check; true when the snapshot contains `Escape`, or both `LControl` and
`D`. -/
def check_keys (keys : List Keycode) : Bool :=
  keys.contains .Escape ||
    (keys.contains .LControl && keys.contains .D)

/-- Geometry `{x, y, width, height}` in pixel coordinates
(src/x11/window.rs). -/
structure Geo where
  x : Nat
  y : Nat
  width : Nat
  height : Nat
  deriving DecidableEq, Repr

instance : Inhabited Geo := ⟨⟨0, 0, 0, 0⟩⟩

/-- `Geometry::is_zero`: Modelled from the spec: the `Geometry` helper
module is not in the tree; per the data model a zero geometry is the
default value with every field zero. -/
def Geo.is_zero (g : Geo) : Bool :=
  g.x = 0 && g.y = 0 && g.width = 0 && g.height = 0

/-- The four-sided padding record mutated by the selection loop. -/
structure Padding where
  top : Nat
  right : Nat
  bottom : Nat
  left : Nat
  deriving DecidableEq, Repr

instance : Inhabited Padding := ⟨⟨0, 0, 0, 0⟩⟩

/-- One side of the padding, in the order `Padding::get_modifiers`
yields them. -/
inductive Side where
  | top | right | bottom | left
  deriving DecidableEq, Repr

/-- Read one side of a padding value. -/
def Padding.side (p : Padding) : Side → Nat
  | .top => p.top
  | .right => p.right
  | .bottom => p.bottom
  | .left => p.left

/-- Write one side of a padding value. -/
def Padding.setSide (p : Padding) : Side → Nat → Padding
  | .top, v => { p with top := v }
  | .right, v => { p with right := v }
  | .bottom, v => { p with bottom := v }
  | .left, v => { p with left := v }

/-- Increase keys of a side. Modelled from the spec: `Padding::get_modifiers`
is not in the tree; per the spec each side is adjusted by Alt plus a
direction key, and the code tests two candidate keys (`increase[0]`,
`increase[1]`), so each side carries an arrow key and a vim-style letter. -/
def incKeys : Side → Keycode × Keycode
  | .top => (.Up, .K)
  | .right => (.Right, .L)
  | .bottom => (.Down, .J)
  | .left => (.Left, .H)

/-- Decrease keys of a side; the opposite direction of `incKeys`. -/
def decKeys : Side → Keycode × Keycode
  | .top => (.Down, .J)
  | .right => (.Left, .H)
  | .bottom => (.Up, .K)
  | .left => (.Right, .L)

/-- The digit encoded by a key whose debug representation starts with
`Key` (`Key0`..`Key9`); `none` for every other key, whose representation
does not contain `Key`. -/
def digitOf : Keycode → Option Nat
  | .Key0 => some 0
  | .Key1 => some 1
  | .Key2 => some 2
  | .Key3 => some 3
  | .Key4 => some 4
  | .Key5 => some 5
  | .Key6 => some 6
  | .Key7 => some 7
  | .Key8 => some 8
  | .Key9 => some 9
  | _ => none

/-- Result of one iteration of the `for (value, increase, decrease) in
modifiers` loop of `Display::update_area`: the new side value, the new
change factor, whether the reset combo was seen, and whether
`window.clear_area()` was invoked. -/
structure SideStep where
  value : Nat
  change : Nat
  reset : Bool
  cleared : Bool
  deriving Repr

/-- The arm of the `match input_state.state.get_keys().as_slice()` of
`Display::update_area` that a key snapshot selects, in source pattern
order: the reset combo `[R, LAlt]`, the Alt arm `[LAlt, key] | [key,
LAlt]`, the Ctrl+Alt arm `[LControl, LAlt, key] | [LControl, key,
LAlt]`, the Shift+Alt arm `[LShift, LAlt, key] | [key, LShift, LAlt]`,
or the wildcard. -/
inductive KeyCombo where
  | reset
  | alt (k : Keycode)
  | ctrlAlt (k : Keycode)
  | shiftAlt (k : Keycode)
  | other
  deriving DecidableEq, Repr

/-- Classify a key snapshot by the match arms of `Display::update_area`,
first matching pattern first. -/
def classify : List Keycode → KeyCombo
  | [.R, .LAlt] => .reset
  | [.LAlt, k] => .alt k
  | [k, .LAlt] => .alt k
  | [.LControl, .LAlt, k] => .ctrlAlt k
  | [.LControl, k, .LAlt] => .ctrlAlt k
  | [.LShift, .LAlt, k] => .shiftAlt k
  | [k, .LShift, .LAlt] => .shiftAlt k
  | _ => .other

/-- One iteration of the modifier loop of `Display::update_area`
(src/x11/display.rs, lines 254-296), for one padding side: the match on
the key snapshot, arm for arm in source order (via `classify`). -/
def sideStep (keys : List Keycode) (area : Geo) (value change : Nat)
    (inc dec : Keycode × Keycode) : SideStep :=
  match classify keys with
  | .reset => ⟨value, change, true, false⟩
  | .alt k =>
      if (k = inc.1 ∨ k = inc.2) ∧ area.height > 5 ∧ area.width > 5 then
        ⟨(checkedAdd value change).getD value, change, false, true⟩
      else
        ⟨value, (digitOf k).getD change, false, false⟩
  | .ctrlAlt k =>
      if k = dec.1 ∨ k = dec.2 then
        ⟨(checkedSub value change).getD value, change, false, true⟩
      else
        ⟨value, change, false, false⟩
  | .shiftAlt k =>
      let v1 :=
        if (k = inc.1 ∨ k = inc.2) ∧ area.height > 10 ∧ area.width > 10 then
          (checkedAdd value change).getD value
        else value
      let v2 :=
        if (k = dec.1 ∨ k = dec.2) ∧ area.height > 10 ∧ area.width > 10 then
          (checkedSub v1 change).getD v1
        else v1
      let cl :=
        ((k = inc.1 ∨ k = inc.2) ∧ area.height > 10 ∧ area.width > 10) ∨
          ((k = dec.1 ∨ k = dec.2) ∧ area.height > 10 ∧ area.width > 10)
      ⟨v2, change, false, decide cl⟩
  | .other => ⟨value, change, false, false⟩

/-- Result of `Display::update_area`: the updated padding, the updated
change factor, the `reset_area` return value, and whether any
`window.clear_area()` call happened inside. -/
structure AreaStep where
  padding : Padding
  change : Nat
  reset : Bool
  cleared : Bool
  deriving Repr

/-- `Display::update_area` (src/x11/display.rs, lines 246-310): fold the
per-side modifier step over the four sides in the order of
`Padding::get_modifiers`, threading the change factor. -/
def update_area (p : Padding) (change : Nat) (area : Geo)
    (keys : List Keycode) : AreaStep :=
  let s1 := sideStep keys area p.top change (incKeys .top) (decKeys .top)
  let s2 := sideStep keys area p.right s1.change (incKeys .right) (decKeys .right)
  let s3 := sideStep keys area p.bottom s2.change (incKeys .bottom) (decKeys .bottom)
  let s4 := sideStep keys area p.left s3.change (incKeys .left) (decKeys .left)
  { padding := ⟨s1.value, s2.value, s3.value, s4.value⟩
    change := s4.change
    reset := s1.reset || s2.reset || s3.reset || s4.reset
    cleared := s1.cleared || s2.cleared || s3.cleared || s4.cleared }

/-- `Display::update_padding` (src/x11/display.rs, lines 223-236): when the
requested size is non-zero, zero the top/left padding and set right/bottom
so that the captured area matches the requested size, with checked
subtraction defaulting to zero on underflow. -/
def update_padding (p : Padding) (size winGeo : Geo) : Padding :=
  if size.is_zero then p
  else
    { top := 0
      right := (checkedSub winGeo.width size.width).getD 0
      bottom := (checkedSub winGeo.height size.height).getD 0
      left := 0 }

/-- `RecordWindow` (record settings): which window to record, with an
optional requested capture size. Modelled from the spec: the settings
module of this display variant is not in the tree; the spec's selection
engine re-resolves "root or currently focused, per configuration". -/
inductive RecordWindow where
  | focus (g : Option Geo)
  | root (g : Option Geo)
  deriving Repr

/-- The slice of `RecordSettings` that `Display::select_window` reads:
target window, initial padding, selection timeout (seconds), poll interval
(milliseconds) and the optional border color. Modelled from the spec for
the fields missing from the tree (`time`, `border`), faithful to the field
accesses in src/x11/display.rs. -/
structure SelSettings where
  window : RecordWindow
  padding : Padding
  timeout : Nat
  interval : Nat
  border : Option Nat
  deriving Repr

/-- The xid of the root window of the default screen. -/
def rootXid : Nat := 1

/-- One tick of the selection loop: the per-tick observations the loop
makes through the display and the input poller. `action` models
`InputState::check_action_keys` (not in the tree; per the spec, the
confirmation/action key is pressed); `focused` is the focused-window
lookup result; `geometry` the geometry the resolved window reports;
`area` the window's current recording area; `elapsedSecs` the value of
`start_time.elapsed().as_secs()` observed this tick; `keys` the key
snapshot used by the cancel check and `update_area`. -/
structure Tick where
  action : Bool
  focused : Option Nat
  geometry : Geo
  area : Geo
  elapsedSecs : Nat
  keys : List Keycode
  deriving Repr

/-- The requested capture size stored in the settings (`size` in
`Display::get_window`): the geometry attached to the `RecordWindow`
variant, defaulting to zero. -/
def settingsSize (s : SelSettings) : Geo :=
  match s.window with
  | .focus g => g.getD default
  | .root g => g.getD default

/-- Resolve the target window's xid as `Display::get_window` does
(src/x11/display.rs, lines 104-114): the focused window under
`RecordWindow::Focus` — panicking with `Failed to get the window` when
the lookup yields none — or the root window under `RecordWindow::Root`. -/
def resolveXid (s : SelSettings) (focused : Option Nat) : Except String Nat :=
  match s.window with
  | .focus _ =>
      match focused with
      | some x => .ok x
      | none => .error "Failed to get the window"
  | .root _ => .ok rootXid

/-- Mutable state of the selection loop: the grabbed xid (`xid`), the
padding and change factor, the current `window` variable (xid and
geometry), plus the tracked display effects — the xids currently holding
a native key grab and the xids with a drawn selection border — and a
count of loop-body entries. -/
structure SelState where
  xid : Option Nat
  padding : Padding
  change : Nat
  winXid : Nat
  winGeo : Geo
  grabs : List Nat
  borders : List Nat
  bodyCount : Nat
  deriving Repr

/-- `Window::draw_borders` effect: Modelled from the spec: the window
module of this display variant is not in the tree; the display draws the
selection border only when a border color is configured. -/
def drawEffect (s : SelSettings) (w : Nat) (borders : List Nat) : List Nat :=
  if s.border.isSome then
    if borders.contains w then borders else w :: borders
  else borders

/-- `Window::clear_area` effect: the window's border is no longer drawn. -/
def clearEffect (w : Nat) (borders : List Nat) : List Nat :=
  borders.filter (fun x => x ≠ w)

/-- `Display::ungrab_keys` (src/x11/display.rs, lines 145-157): with
`Some(xid)`, release every key grab on that window (`XUngrabKey` with
`AnyKey`/`AnyModifier`); with `None`, do nothing. -/
def ungrab_keys (xid : Option Nat) (grabs : List Nat) : List Nat :=
  match xid with
  | some x => grabs.filter (fun g => g ≠ x)
  | none => grabs

/-- Outcome of one loop-body execution: a panic, a `break` out of the
loop, or continuation with the next state. -/
inductive BodyOut where
  | panicked (msg : String)
  | exit (st : SelState)
  | next (st : SelState)
  deriving Repr

/-- Lines 175-176 of the loop body: the freshly resolved window is
stored in `window` (with the geometry it reports this tick), its border
is drawn, and the body entry is counted. -/
def drawPhase (s : SelSettings) (t : Tick) (w : Nat) (st : SelState) :
    SelState :=
  { st with
    winXid := w
    winGeo := t.geometry
    borders := drawEffect s w st.borders
    bodyCount := st.bodyCount + 1 }

/-- Lines 177-178 of the loop body: `update_area` updates the padding
and the change factor, possibly clearing the current window's area; its
`reset_area` flag is returned alongside. -/
def areaPhase (t : Tick) (w : Nat) (st : SelState) : SelState × Bool :=
  let a := update_area st.padding st.change t.area t.keys
  ({ st with
      padding := a.padding
      change := a.change
      borders :=
        if a.cleared then clearEffect w st.borders else st.borders },
    a.reset)

/-- Lines 192-199 of the loop body: on a window switch or an area reset,
release the previous grab, restore the configured padding and re-derive
it from the requested size, clear the new window's area, and grab the
action key on the new window. -/
def switchPhase (s : SelSettings) (t : Tick) (w : Nat) (st : SelState) :
    SelState :=
  { st with
    xid := some w
    padding := update_padding s.padding (settingsSize s) t.geometry
    grabs := w :: ungrab_keys st.xid st.grabs
    borders := clearEffect w st.borders }

/-- The body of the `while` loop of `Display::select_window`
(src/x11/display.rs, lines 174-201), entered when the action keys are
not pressed: re-resolve the window, draw its border, run `update_area`,
then check cancel keys, then the timeout, then re-grab on a window
switch or an area reset, in source order. -/
def selBodyOk (s : SelSettings) (t : Tick) (w : Nat) (st : SelState) :
    BodyOut :=
  if check_keys t.keys = true then
    .exit { (areaPhase t w (drawPhase s t w st)).1 with xid := none }
  else if t.elapsedSecs > s.timeout then
    .exit { (areaPhase t w (drawPhase s t w st)).1 with xid := none }
  else if (areaPhase t w (drawPhase s t w st)).1.xid ≠ some w ∨
      (areaPhase t w (drawPhase s t w st)).2 = true then
    .next (switchPhase s t w (areaPhase t w (drawPhase s t w st)).1)
  else
    .next (areaPhase t w (drawPhase s t w st)).1

/-- Dispatch of the loop body on the window resolution. -/
def selBody (s : SelSettings) (t : Tick) (st : SelState) : BodyOut :=
  match resolveXid s t.focused with
  | .error m => .panicked m
  | .ok w => selBodyOk s t w st

/-- Verdict of running the selection loop over a finite tick trace. -/
inductive RunOut where
  | finished (result : Option Nat) (final : SelState)
  | outOfTicks (st : SelState)
  | panicked (msg : String)
  deriving Repr

/-- The code after the `while` loop of `Display::select_window`
(src/x11/display.rs, lines 203-214): release the grab recorded in `xid`,
clear the current window's area when a border is configured, and return
the current window iff `xid` is set. -/
def finishUp (s : SelSettings) (st : SelState) : RunOut :=
  let st' : SelState :=
    { st with
      grabs := ungrab_keys st.xid st.grabs
      borders :=
        if s.border.isSome then clearEffect st.winXid st.borders
        else st.borders }
  .finished (if st.xid.isSome then some st.winXid else none) st'

/-- The `while !input_state.check_action_keys()` loop of
`Display::select_window`: each tick first evaluates the guard, then runs
the body; a `break` or a false guard falls through to `finishUp`. -/
def selLoop (s : SelSettings) : List Tick → SelState → RunOut
  | [], st => .outOfTicks st
  | t :: ts, st =>
      if t.action then finishUp s st
      else
        match selBody s t st with
        | .panicked m => .panicked m
        | .exit st' => finishUp s st'
        | .next st' => selLoop s ts st'

/-- `Display::select_window` (src/x11/display.rs, lines 165-215) over a
finite trace of ticks: resolve the initial window (panicking as
`get_window` does when the focused lookup fails), then run the poll loop
with `xid = None` and `change_factor = 3`. -/
def select_window (s : SelSettings) (initFocused : Option Nat)
    (initGeo : Geo) (ticks : List Tick) : RunOut :=
  match resolveXid s initFocused with
  | .error m => .panicked m
  | .ok w0 =>
      selLoop s ticks
        { xid := none
          padding := s.padding
          change := 3
          winXid := w0
          winGeo := initGeo
          grabs := []
          borders := []
          bodyCount := 0 }

/-- The returned window of a finished run, as `some result`. -/
def RunOut.resultOf : RunOut → Option (Option Nat)
  | .finished r _ => some r
  | _ => none

/-- The final tracked state of a finished run. -/
def RunOut.finalOf : RunOut → Option SelState
  | .finished _ st => some st
  | _ => none

/-- Whether a body outcome continues the loop. -/
def BodyOut.isNext : BodyOut → Bool
  | .next _ => true
  | _ => false

/-- The `xid` carried by a body `break`, when the body breaks. -/
def BodyOut.exitXid : BodyOut → Option (Option Nat)
  | .exit st => some st.xid
  | _ => none

/-- Width/height rectangle of the capture area (src/x11/window.rs `Rect`
role as used by the GIF collector). -/
structure Rect where
  width : Nat
  height : Nat
  deriving DecidableEq, Repr

/-- A captured image: its pixel data (src/x11/image). -/
structure Image where
  data : List Nat
  deriving DecidableEq, Repr

/-- An encoded animation frame of the external `gif` crate. -/
structure GifFrame where
  width : Nat
  height : Nat
  data : List Nat
  delay : Nat
  speed : Nat
  deriving DecidableEq, Repr

/-- `gif::Frame::from_rgb_speed`: builds a frame from RGB data with the
given quantization speed; every field not derived from the arguments
keeps its `Frame::default()` value — in particular the per-frame `delay`
stays `0`. -/
def fromRgbSpeed (w h : Nat) (data : List Nat) (speed : Nat) : GifFrame :=
  { width := w, height := h, data := data, delay := 0, speed := speed }

/-- The GIF frame collector `Gif` (src/x11/image/gif.rs). -/
structure Gif where
  rect : Rect
  frames : List GifFrame
  speed : Int
  deriving Repr

/-- `Gif::new` (src/x11/image/gif.rs, lines 12-18). -/
def Gif.new (rect : Rect) (speed : Int) : Gif :=
  { rect := rect, frames := [], speed := speed }

/-- `Gif::add_frame` (src/x11/image/gif.rs, lines 19-27): push a frame
built by `Frame::from_rgb_speed` from the collector's rectangle — each
dimension truncated to `u16` — and the image data, with the literal
quantization speed `30`. -/
def Gif.add_frame (g : Gif) (image : Image) : Gif :=
  { g with
    frames :=
      g.frames ++
        [fromRgbSpeed (g.rect.width % 2 ^ 16) (g.rect.height % 2 ^ 16)
          image.data 30] }

/-- A frame of a decoded animation as the split routine consumes it. -/
structure Frame where
  image : Image
  deriving DecidableEq, Repr

/-- `File::get_path_with_extension`: Modelled from the spec: the file
utility module is not in the tree; per the spec each split frame is
written "with the requested extension", so the utility attaches the
requested format's extension to the path. -/
def get_path_with_extension (path ext : String) : String :=
  path ++ "." ++ ext

/-- The filesystem effects of one `App::split_gif` run: whether the
destination directory was created (`fs::create_dir_all`) and the files
written, in write order, each with its content. -/
structure SplitResult where
  dirCreated : Bool
  files : List (String × Option Frame)
  deriving Repr

/-- `App::split_gif` (src/app.rs, lines 252-267): after decoding, create
the destination directory, then for `i in 0..frames.len()` write frame
`i` to `dir/frame_<i>` with the requested extension — the index formatted
by `format!("frame_{}", i)`, plain decimal. -/
def split_gif (frames : List Frame) (dir ext : String) : SplitResult :=
  { dirCreated := true
    files :=
      (List.range frames.length).map fun i =>
        (get_path_with_extension (dir ++ "/" ++ "frame_" ++ toString i) ext,
          frames.get? i) }

/-- The file name a zero-padded naming scheme would use: the index padded
with leading zeros to the uniform width of the largest index. This
follows the spec's words ("named by a zero-padded sequence index") for
comparison with `split_gif`. -/
def zeroPaddedName (dir ext : String) (count i : Nat) : String :=
  let width := (toString (count - 1)).length
  let digits := toString i
  let padded :=
    String.mk (List.replicate (width - digits.length) '0') ++ digits
  get_path_with_extension (dir ++ "/" ++ "frame_" ++ padded) ext

/-- The per-frame delay the spec prescribes for the encoder:
`round(100 / fps)` centiseconds. -/
def specDelay (fps : Nat) : Nat :=
  (100 + fps / 2) / fps

/-! ## Theorems -/

/-- C10 — The cancel-key predicate is exactly: `InputState::check_keys`
returns true iff the key snapshot contains `Escape`, or contains both
`LControl` and `D`; no other combination cancels. -/
theorem check_keys_exact (keys : List Keycode) :
    check_keys keys = true ↔
      (Keycode.Escape ∈ keys ∨
        (Keycode.LControl ∈ keys ∧ Keycode.D ∈ keys)) := by
  simp [check_keys]

/-- Folding `Gif::add_frame` over a list of images appends, in order, one
frame per image built by `from_rgb_speed` from the collector's rectangle
and the image data. -/
theorem foldl_add_frame (g : Gif) (imgs : List Image) :
    (imgs.foldl Gif.add_frame g).frames =
      g.frames ++
        imgs.map (fun im =>
          fromRgbSpeed (g.rect.width % 2 ^ 16) (g.rect.height % 2 ^ 16)
            im.data 30) := by
  induction imgs generalizing g with
  | nil => simp
  | cons im rest ih =>
      simp only [List.foldl_cons, List.map_cons]
      rw [ih]
      simp [Gif.add_frame]

/-- C9 — Frame order is preserved: the i-th image added to the GIF
collector becomes the i-th frame of the output, and the output has
exactly one frame per image. -/
theorem add_frame_order (r : Rect) (s : Int) (imgs : List Image) (i : Nat)
    (hi : i < imgs.length) :
    (imgs.foldl Gif.add_frame (Gif.new r s)).frames.length = imgs.length ∧
      (imgs.foldl Gif.add_frame (Gif.new r s)).frames.get? i =
        (imgs.get? i).map (fun im =>
          fromRgbSpeed (r.width % 2 ^ 16) (r.height % 2 ^ 16) im.data 30) := by
  constructor
  · rw [foldl_add_frame]
    simp [Gif.new]
  · rw [foldl_add_frame]
    simp [Gif.new, List.get?_map]

/-- Witness for C9 at a concrete two-image input. -/
theorem add_frame_order_witness :
    ((([⟨[1]⟩, ⟨[2]⟩] : List Image).foldl Gif.add_frame
        (Gif.new ⟨4, 3⟩ 10)).frames.length = 2 ∧
      (([⟨[1]⟩, ⟨[2]⟩] : List Image).foldl Gif.add_frame
        (Gif.new ⟨4, 3⟩ 10)).frames.get? 1 =
        some (fromRgbSpeed 4 3 [2] 30)) :=
  add_frame_order ⟨4, 3⟩ 10 [⟨[1]⟩, ⟨[2]⟩] 1 (by decide)

/-- C4 counterexample — at target fps 10 the spec's per-frame delay is
`round(100/10) = 10` centiseconds, but the frame the encoder stores has
delay 0: `add_frame` never assigns a delay. -/
theorem add_frame_delay_counterexample :
    (((Gif.new ⟨2, 2⟩ 10).add_frame ⟨[0, 0, 0]⟩).frames.map
        GifFrame.delay) = [0] ∧
      specDelay 10 = 10 ∧ (0 : Nat) ≠ 10 := by
  refine ⟨rfl, rfl, by decide⟩

/-- C4 amended — `Gif::add_frame` assigns no fps-derived delay: every
frame it ever stores keeps the library-default delay 0 and the constant
quantization speed 30, whatever the target fps. -/
theorem add_frame_delay_constant (r : Rect) (s : Int) (imgs : List Image)
    (f : GifFrame) (hf : f ∈ (imgs.foldl Gif.add_frame (Gif.new r s)).frames) :
    f.delay = 0 ∧ f.speed = 30 := by
  rw [foldl_add_frame] at hf
  simp only [Gif.new, List.nil_append, List.mem_map] at hf
  obtain ⟨im, _, rfl⟩ := hf
  exact ⟨rfl, rfl⟩

/-- Witness for C4 amended at a concrete one-image input. -/
theorem add_frame_delay_constant_witness :
    (fromRgbSpeed 2 2 [7] 30).delay = 0 ∧
      (fromRgbSpeed 2 2 [7] 30).speed = 30 :=
  add_frame_delay_constant ⟨2, 2⟩ 10 [⟨[7]⟩] (fromRgbSpeed 2 2 [7] 30)
    (by decide)

/-- C3 counterexample — splitting an 11-frame animation writes
`frame_10` alongside `frame_0`: the indices are not zero-padded to a
uniform width (`frame_0.png` would be `frame_00.png` under the spec's
zero-padded scheme). -/
theorem split_gif_padding_counterexample :
    (split_gif (List.replicate 11 ⟨⟨[]⟩⟩) "D" "png").files.length = 11 ∧
      ((split_gif (List.replicate 11 ⟨⟨[]⟩⟩) "D" "png").files.get? 0).map
          Prod.fst = some "D/frame_0.png" ∧
      zeroPaddedName "D" "png" 11 0 = "D/frame_00.png" ∧
      "D/frame_0.png" ≠ "D/frame_00.png" := by
  refine ⟨rfl, rfl, rfl, by decide⟩

/-- C3 amended — splitting a decoded n-frame animation creates the
destination directory and writes exactly n files, one per frame in input
order, each named `frame_<i>` with the plain (unpadded) decimal index
and the requested extension. -/
theorem split_gif_files (frames : List Frame) (dir ext : String) :
    (split_gif frames dir ext).dirCreated = true ∧
      (split_gif frames dir ext).files.length = frames.length ∧
      ∀ i, i < frames.length →
        (split_gif frames dir ext).files.get? i =
          some (dir ++ "/" ++ "frame_" ++ toString i ++ "." ++ ext,
            frames.get? i) := by
  refine ⟨rfl, by simp [split_gif], ?_⟩
  intro i hi
  simp only [split_gif, get_path_with_extension, List.getElem?_map,
    List.get?_eq_getElem?, List.getElem?_range hi, Option.map_some']

/-- Witness for C3 amended at a concrete one-frame split. -/
theorem split_gif_files_witness :
    (split_gif [⟨⟨[9]⟩⟩] "d" "png").files.get? 0 =
      some ("d/frame_0.png", some ⟨⟨[9]⟩⟩) :=
  (split_gif_files [⟨⟨[9]⟩⟩] "d" "png").2.2 0 (by decide)

/-- Every value a modifier-loop iteration can produce: unchanged, a
bounded checked increase, or a checked decrease that exactly undoes a
later addition (so it never underflows). -/
theorem sideStep_value_cases (keys : List Keycode) (area : Geo)
    (v c : Nat) (inc dec : Keycode × Keycode) :
    ∃ d, (sideStep keys area v c inc dec).value = v ∨
      ((sideStep keys area v c inc dec).value = v + d ∧ v + d < u32Size) ∨
      ((sideStep keys area v c inc dec).value + d = v) := by
  refine ⟨c, ?_⟩
  have hadd : ∀ v' : Nat, (checkedAdd v' c).getD v' = v' ∨
      ((checkedAdd v' c).getD v' = v' + c ∧ v' + c < u32Size) := by
    intro v'
    unfold checkedAdd
    split
    · right; exact ⟨rfl, by assumption⟩
    · left; rfl
  have hsub : ∀ v' : Nat, (checkedSub v' c).getD v' = v' ∨
      ((checkedSub v' c).getD v' + c = v') := by
    intro v'
    unfold checkedSub
    split
    · right; simp only [Option.getD_some]; omega
    · left; rfl
  unfold sideStep
  cases classify keys with
  | reset => exact Or.inl rfl
  | alt k =>
      simp only
      split
      · rcases hadd v with h | ⟨h, hb⟩
        · exact Or.inl h
        · exact Or.inr (Or.inl ⟨h, hb⟩)
      · exact Or.inl rfl
  | ctrlAlt k =>
      simp only
      split
      · rcases hsub v with h | h
        · exact Or.inl h
        · exact Or.inr (Or.inr h)
      · exact Or.inl rfl
  | shiftAlt k =>
      simp only
      generalize hV1 :
        (if (k = inc.1 ∨ k = inc.2) ∧ area.height > 10 ∧ area.width > 10 then
          (checkedAdd v c).getD v else v) = V1
      have hv1 : V1 = v ∨ (V1 = v + c ∧ v + c < u32Size) := by
        rw [← hV1]
        split
        · exact hadd v
        · exact Or.inl rfl
      split
      · rcases hsub V1 with h | h <;> rcases hv1 with h1 | ⟨h1, hb⟩ <;> omega
      · rcases hv1 with h1 | ⟨h1, hb⟩ <;> omega
  | other => exact Or.inl rfl

/-- C7 — Padding adjustments never wrap or underflow: each side of the
padding after `update_area` is unchanged, a checked increase that stayed
inside the `u32` range, or a checked decrease that never drops below
zero; and for a non-zero requested size `update_padding` zeroes top/left
and clamps the subtracted right/bottom dimensions at zero (their value
plus the requested size is exactly `max` of the window dimension and the
size, and never exceeds the window dimension). -/
theorem padding_no_wrap (p : Padding) (c : Nat) (area : Geo)
    (keys : List Keycode) (size geo : Geo) (s : Side)
    (hsz : size.is_zero = false) :
    (∃ d, (update_area p c area keys).padding.side s = p.side s ∨
      ((update_area p c area keys).padding.side s = p.side s + d ∧
        p.side s + d < u32Size) ∨
      ((update_area p c area keys).padding.side s + d = p.side s)) ∧
    (update_padding p size geo).top = 0 ∧
    (update_padding p size geo).left = 0 ∧
    (update_padding p size geo).right + size.width = max geo.width size.width ∧
    (update_padding p size geo).bottom + size.height =
      max geo.height size.height ∧
    (update_padding p size geo).right ≤ geo.width ∧
    (update_padding p size geo).bottom ≤ geo.height := by
  refine ⟨?_, ?_, ?_, ?_, ?_, ?_, ?_⟩
  · cases s
    · exact sideStep_value_cases keys area p.top c _ _
    · exact sideStep_value_cases keys area p.right _ _ _
    · exact sideStep_value_cases keys area p.bottom _ _ _
    · exact sideStep_value_cases keys area p.left _ _ _
  all_goals
    simp only [update_padding, hsz, Bool.false_eq_true, if_false, checkedSub]
  · rcases le_or_lt size.width geo.width with h | h
    · rw [if_pos h]
      simp only [Option.getD_some]
      rw [Nat.sub_add_cancel h, Nat.max_eq_left h]
    · rw [if_neg (by omega)]
      simp only [Option.getD_none, Nat.zero_add]
      rw [Nat.max_eq_right (le_of_lt h)]
  · rcases le_or_lt size.height geo.height with h | h
    · rw [if_pos h]
      simp only [Option.getD_some]
      rw [Nat.sub_add_cancel h, Nat.max_eq_left h]
    · rw [if_neg (by omega)]
      simp only [Option.getD_none, Nat.zero_add]
      rw [Nat.max_eq_right (le_of_lt h)]
  · split <;> simp
  · split <;> simp

/-- Witness for C7 at concrete inputs: padding (1,2,3,4), change 3,
area 8×8, an Alt+Up increase, requested size 4×4 in a 10-6 window. -/
theorem padding_no_wrap_witness :
    ((∃ d,
        (update_area ⟨1, 2, 3, 4⟩ 3 ⟨0, 0, 8, 8⟩
              [Keycode.LAlt, Keycode.Up]).padding.side Side.top =
            (⟨1, 2, 3, 4⟩ : Padding).side Side.top ∨
          ((update_area ⟨1, 2, 3, 4⟩ 3 ⟨0, 0, 8, 8⟩
                [Keycode.LAlt, Keycode.Up]).padding.side Side.top =
              (⟨1, 2, 3, 4⟩ : Padding).side Side.top + d ∧
            (⟨1, 2, 3, 4⟩ : Padding).side Side.top + d < u32Size) ∨
          ((update_area ⟨1, 2, 3, 4⟩ 3 ⟨0, 0, 8, 8⟩
                [Keycode.LAlt, Keycode.Up]).padding.side Side.top + d =
            (⟨1, 2, 3, 4⟩ : Padding).side Side.top)) ∧
      (update_padding ⟨1, 2, 3, 4⟩ ⟨0, 0, 4, 4⟩ ⟨0, 0, 10, 6⟩).top = 0 ∧
      (update_padding ⟨1, 2, 3, 4⟩ ⟨0, 0, 4, 4⟩ ⟨0, 0, 10, 6⟩).left = 0 ∧
      (update_padding ⟨1, 2, 3, 4⟩ ⟨0, 0, 4, 4⟩ ⟨0, 0, 10, 6⟩).right + 4 =
        max 10 4 ∧
      (update_padding ⟨1, 2, 3, 4⟩ ⟨0, 0, 4, 4⟩ ⟨0, 0, 10, 6⟩).bottom + 4 =
        max 6 4 ∧
      (update_padding ⟨1, 2, 3, 4⟩ ⟨0, 0, 4, 4⟩ ⟨0, 0, 10, 6⟩).right ≤ 10 ∧
      (update_padding ⟨1, 2, 3, 4⟩ ⟨0, 0, 4, 4⟩ ⟨0, 0, 10, 6⟩).bottom ≤ 6) :=
  padding_no_wrap ⟨1, 2, 3, 4⟩ 3 ⟨0, 0, 8, 8⟩ [Keycode.LAlt, Keycode.Up]
    ⟨0, 0, 4, 4⟩ ⟨0, 0, 10, 6⟩ Side.top (by decide)

/-- A reset-combo snapshot leaves the side value unchanged. -/
theorem sideStep_reset_value (keys : List Keycode) (area : Geo)
    (v c : Nat) (inc dec : Keycode × Keycode)
    (hc : classify keys = .reset) :
    (sideStep keys area v c inc dec).value = v := by
  unfold sideStep
  rw [hc]

/-- An Alt-arm snapshot leaves the side value unchanged when the window
area does not exceed 5×5. -/
theorem sideStep_alt_not_guard (keys : List Keycode) (area : Geo)
    (v c : Nat) (inc dec : Keycode × Keycode) (k : Keycode)
    (hc : classify keys = .alt k)
    (h : ¬(area.height > 5 ∧ area.width > 5)) :
    (sideStep keys area v c inc dec).value = v := by
  unfold sideStep
  rw [hc]
  simp only
  rw [if_neg fun hx => h ⟨hx.2.1, hx.2.2⟩]

/-- A Shift+Alt-arm snapshot leaves the side value unchanged when the
window area does not exceed 10×10. -/
theorem sideStep_shift_not_guard (keys : List Keycode) (area : Geo)
    (v c : Nat) (inc dec : Keycode × Keycode) (k : Keycode)
    (hc : classify keys = .shiftAlt k)
    (h : ¬(area.height > 10 ∧ area.width > 10)) :
    (sideStep keys area v c inc dec).value = v := by
  unfold sideStep
  rw [hc]
  simp only
  rw [if_neg fun hx => h ⟨hx.2.1, hx.2.2⟩,
    if_neg fun hx => h ⟨hx.2.1, hx.2.2⟩]

/-- The Ctrl+Alt arm leaves the side value unchanged when the key is not
one of the side's decrease keys. -/
theorem sideStep_ctrlAlt_nondec (keys : List Keycode) (area : Geo)
    (v c : Nat) (inc dec : Keycode × Keycode) (k : Keycode)
    (hc : classify keys = .ctrlAlt k)
    (hk : ¬(k = dec.1 ∨ k = dec.2)) :
    (sideStep keys area v c inc dec).value = v := by
  unfold sideStep
  rw [hc]
  simp only
  rw [if_neg hk]

/-- When the side step of each of the four sides leaves its value
unchanged, `update_area` returns the padding unchanged. -/
theorem update_area_padding_unchanged (p : Padding) (c : Nat) (area : Geo)
    (keys : List Keycode)
    (h : ∀ v c' (s : Side),
      (sideStep keys area v c' (incKeys s) (decKeys s)).value = v) :
    (update_area p c area keys).padding = p := by
  cases p
  simp only [update_area, h]

/-- The Alt arm applies the checked increase when the key is an increase
key and the area exceeds 5×5. -/
theorem sideStep_alt_increase (keys : List Keycode) (area : Geo)
    (v c : Nat) (inc dec : Keycode × Keycode) (k : Keycode)
    (hc : classify keys = .alt k) (hk : k = inc.1 ∨ k = inc.2)
    (h : area.height > 5 ∧ area.width > 5) :
    (sideStep keys area v c inc dec).value = (checkedAdd v c).getD v := by
  unfold sideStep
  rw [hc]
  simp only
  rw [if_pos ⟨hk, h.1, h.2⟩]

/-- The Shift+Alt arm applies the checked increase when the key is an
increase key (and not a decrease key) and the area exceeds 10×10. -/
theorem sideStep_shift_increase (keys : List Keycode) (area : Geo)
    (v c : Nat) (inc dec : Keycode × Keycode) (k : Keycode)
    (hc : classify keys = .shiftAlt k) (hk : k = inc.1 ∨ k = inc.2)
    (hk' : ¬(k = dec.1 ∨ k = dec.2))
    (h : area.height > 10 ∧ area.width > 10) :
    (sideStep keys area v c inc dec).value = (checkedAdd v c).getD v := by
  unfold sideStep
  rw [hc]
  simp only
  rw [if_neg fun hx => hk' hx.1, if_pos ⟨hk, h.1, h.2⟩]

/-- The Shift+Alt arm applies the checked decrease when the key is a
decrease key (and not an increase key) and the area exceeds 10×10. -/
theorem sideStep_shift_decrease (keys : List Keycode) (area : Geo)
    (v c : Nat) (inc dec : Keycode × Keycode) (k : Keycode)
    (hc : classify keys = .shiftAlt k) (hk : k = dec.1 ∨ k = dec.2)
    (hk' : ¬(k = inc.1 ∨ k = inc.2))
    (h : area.height > 10 ∧ area.width > 10) :
    (sideStep keys area v c inc dec).value = (checkedSub v c).getD v := by
  unfold sideStep
  rw [hc]
  simp only
  rw [if_pos ⟨hk, h.1, h.2⟩, if_neg fun hx => hk' hx.1]

/-- The classification of a two-key snapshot starting with `LAlt`. -/
theorem classify_alt_cons (k : Keycode) : classify [.LAlt, k] = .alt k := by
  cases k <;> rfl

/-- The classification of a three-key snapshot starting with
`LShift, LAlt`. -/
theorem classify_shift_cons (k : Keycode) :
    classify [.LShift, .LAlt, k] = .shiftAlt k := by
  cases k <;> rfl

/-- The classification of a two-key snapshot ending in `LAlt`: the reset
combo for `R`, the Alt arm otherwise. -/
theorem classify_snoc_alt (k : Keycode) :
    classify [k, .LAlt] = if k = .R then .reset else .alt k := by
  cases k <;> rfl

/-- The classification of a three-key snapshot `[k, LShift, LAlt]`: the
Ctrl+Alt arm (on `LShift`) for `LControl`, the Shift+Alt arm otherwise. -/
theorem classify_cons_shift_alt (k : Keycode) :
    classify [k, .LShift, .LAlt] =
      if k = .LControl then .ctrlAlt .LShift else .shiftAlt k := by
  cases k <;> rfl

/-- C6 — Minimum-area guards: an unmodified Alt+key padding adjustment
is applied only when the window area exceeds 5×5, and a Shift+Alt
adjustment (increase or decrease) only when the area exceeds 10×10; an
adjustment attempted at or below the guard leaves the padding unchanged,
while above the guard the checked adjustment is applied (shown on the
top side with its direction keys `Up`/`Down`). -/
theorem update_area_guards (p : Padding) (c : Nat) (area : Geo)
    (k : Keycode) :
    (¬(area.height > 5 ∧ area.width > 5) →
      (update_area p c area [.LAlt, k]).padding = p ∧
      (update_area p c area [k, .LAlt]).padding = p) ∧
    (¬(area.height > 10 ∧ area.width > 10) →
      (update_area p c area [.LShift, .LAlt, k]).padding = p ∧
      (update_area p c area [k, .LShift, .LAlt]).padding = p) ∧
    ((area.height > 5 ∧ area.width > 5) →
      (update_area p c area [.LAlt, .Up]).padding.top =
        (checkedAdd p.top c).getD p.top) ∧
    ((area.height > 10 ∧ area.width > 10) →
      (update_area p c area [.LShift, .LAlt, .Up]).padding.top =
        (checkedAdd p.top c).getD p.top ∧
      (update_area p c area [.LShift, .LAlt, .Down]).padding.top =
        (checkedSub p.top c).getD p.top) := by
  refine ⟨fun h => ⟨?_, ?_⟩, fun h => ⟨?_, ?_⟩, fun h => ?_, fun h => ⟨?_, ?_⟩⟩
  · exact update_area_padding_unchanged p c area _ fun v c' s =>
      sideStep_alt_not_guard _ area v c' _ _ k (classify_alt_cons k) h
  · by_cases hk : k = Keycode.R
    · refine update_area_padding_unchanged p c area _ fun v c' s => ?_
      exact sideStep_reset_value _ area v c' _ _
        (by rw [classify_snoc_alt, if_pos hk])
    · refine update_area_padding_unchanged p c area _ fun v c' s => ?_
      exact sideStep_alt_not_guard _ area v c' _ _ k
        (by rw [classify_snoc_alt, if_neg hk]) h
  · exact update_area_padding_unchanged p c area _ fun v c' s =>
      sideStep_shift_not_guard _ area v c' _ _ k (classify_shift_cons k) h
  · by_cases hk : k = Keycode.LControl
    · refine update_area_padding_unchanged p c area _ fun v c' s => ?_
      refine sideStep_ctrlAlt_nondec _ area v c' _ _ Keycode.LShift
        (by rw [classify_cons_shift_alt, if_pos hk]) ?_
      cases s <;> decide
    · refine update_area_padding_unchanged p c area _ fun v c' s => ?_
      exact sideStep_shift_not_guard _ area v c' _ _ k
        (by rw [classify_cons_shift_alt, if_neg hk]) h
  · simp only [update_area]
    exact sideStep_alt_increase _ area p.top c _ _ Keycode.Up rfl
      (Or.inl rfl) h
  · simp only [update_area]
    exact sideStep_shift_increase _ area p.top c _ _ Keycode.Up rfl
      (Or.inl rfl) (by decide) h
  · simp only [update_area]
    exact sideStep_shift_decrease _ area p.top c _ _ Keycode.Down rfl
      (Or.inl rfl) (by decide) h

/-- Witness for C6: at area 4×4 an Alt+Up adjustment leaves the padding
unchanged; at 12×12 it increases the top padding by the change factor. -/
theorem update_area_guards_witness :
    (update_area ⟨1, 1, 1, 1⟩ 2 ⟨0, 0, 4, 4⟩
        [Keycode.LAlt, Keycode.Up]).padding = ⟨1, 1, 1, 1⟩ ∧
      (update_area ⟨1, 1, 1, 1⟩ 2 ⟨0, 0, 12, 12⟩
        [Keycode.LAlt, Keycode.Up]).padding.top = 3 :=
  ⟨((update_area_guards ⟨1, 1, 1, 1⟩ 2 ⟨0, 0, 4, 4⟩ Keycode.Up).1
      (by decide)).1,
    ((update_area_guards ⟨1, 1, 1, 1⟩ 2 ⟨0, 0, 12, 12⟩ Keycode.Up).2.2.1
      (by decide)).trans (by decide)⟩

/-- A tick with no key or action input: the selection loop idles. -/
def quietTick (e : Nat) : Tick :=
  { action := false, focused := none, geometry := default, area := default,
    elapsedSecs := e, keys := [] }

/-- A loop state for concrete instantiations: nothing grabbed yet. -/
def witState : SelState :=
  { xid := none, padding := default, change := 3, winXid := 1,
    winGeo := default, grabs := [], borders := [], bodyCount := 0 }

/-- A loop state with window 5 already grabbed. -/
def grabbedState : SelState :=
  { xid := some 5, padding := default, change := 3, winXid := 5,
    winGeo := default, grabs := [5], borders := [], bodyCount := 1 }

/-- C1 counterexample — with timeout 0 the loop body is entered four
times on a trace whose first three ticks observe 0 elapsed seconds: the
abort fires only when `elapsed.as_secs() > 0`, i.e. after a full second,
not before the body's second entry; the result is still `None`. -/
theorem select_timeout_zero_counterexample :
    (select_window ⟨.root none, default, 0, 10, some 0⟩ none default
        [quietTick 0, quietTick 0, quietTick 0, quietTick 1]).resultOf =
      some none ∧
    ((select_window ⟨.root none, default, 0, 10, some 0⟩ none default
        [quietTick 0, quietTick 0, quietTick 0, quietTick 1]).finalOf).map
      SelState.bodyCount = some 4 ∧
    ¬(4 ≤ 1) :=
  ⟨rfl, rfl, by decide⟩

/-- C1 amended — with timeout 0, a tick observing 0 elapsed seconds (no
cancel keys) continues the loop, and a tick observing at least one
elapsed second breaks with `xid = None`: the abort fires only once the
elapsed time exceeds a full second, so the body may be entered once per
poll interval during the first second before the `None` result. -/
theorem select_timeout_zero_amended (s : SelSettings) (g : Option Geo)
    (t : Tick) (st : SelState) (hw : s.window = .root g)
    (htm : s.timeout = 0) (hcancel : check_keys t.keys = false) :
    (t.elapsedSecs = 0 → (selBody s t st).isNext = true) ∧
    (1 ≤ t.elapsedSecs → (selBody s t st).exitXid = some none) := by
  constructor
  · intro he
    simp only [selBody, selBodyOk, resolveXid, hw, hcancel, htm, he,
      Bool.false_eq_true, if_false, gt_iff_lt, lt_irrefl]
    split
    · rfl
    · rfl
  · intro he
    simp only [selBody, selBodyOk, resolveXid, hw, hcancel, htm,
      Bool.false_eq_true, if_false, gt_iff_lt]
    rw [if_pos (by omega)]
    rfl

/-- Witness for C1 amended: a quiet tick at 0 elapsed seconds continues;
a quiet tick at 1 elapsed second aborts with `xid = None`. -/
theorem select_timeout_zero_amended_witness :
    (selBody ⟨.root none, default, 0, 10, some 0⟩ (quietTick 0)
      witState).isNext = true ∧
    (selBody ⟨.root none, default, 0, 10, some 0⟩ (quietTick 1)
      witState).exitXid = some none :=
  ⟨(select_timeout_zero_amended ⟨.root none, default, 0, 10, some 0⟩ none
      (quietTick 0) witState rfl rfl rfl).1 rfl,
    (select_timeout_zero_amended ⟨.root none, default, 0, 10, some 0⟩ none
      (quietTick 1) witState rfl rfl rfl).2 (by decide)⟩

/-- C2 counterexample — when the focused-window lookup yields no window,
`select_window` does not yield `None`: it panics with `Failed to get the
window`, both at the initial resolution and on a later tick. -/
theorem select_focus_none_counterexample :
    select_window ⟨.focus none, default, 30, 10, none⟩ none default [] =
      .panicked "Failed to get the window" ∧
    selBody ⟨.focus none, default, 30, 10, none⟩ (quietTick 0) witState =
      .panicked "Failed to get the window" :=
  ⟨rfl, rfl⟩

/-- C2 amended — under the focus configuration, a failed focused-window
lookup makes `select_window` panic with `Failed to get the window`
(`get_window`'s `expect`), at the initial resolution and at every tick;
`None` arises only from cancellation or timeout. -/
theorem select_focus_none_panics (s : SelSettings) (g : Option Geo)
    (t : Tick) (st : SelState) (initGeo : Geo) (ticks : List Tick)
    (hw : s.window = .focus g) :
    select_window s none initGeo ticks =
      .panicked "Failed to get the window" ∧
    (t.focused = none →
      selBody s t st = .panicked "Failed to get the window") := by
  constructor
  · simp only [select_window, resolveXid, hw]
  · intro hf
    simp only [selBody, resolveXid, hw, hf]

/-- Witness for C2 amended at a concrete focus configuration. -/
theorem select_focus_none_panics_witness :
    select_window ⟨.focus none, default, 30, 10, none⟩ none default
        [quietTick 0] = .panicked "Failed to get the window" ∧
      selBody ⟨.focus none, default, 30, 10, none⟩ (quietTick 3)
        grabbedState = .panicked "Failed to get the window" :=
  ⟨(select_focus_none_panics ⟨.focus none, default, 30, 10, none⟩ none
      (quietTick 3) grabbedState default [quietTick 0] rfl).1,
    (select_focus_none_panics ⟨.focus none, default, 30, 10, none⟩ none
      (quietTick 3) grabbedState default [quietTick 0] rfl).2 rfl⟩

/-- A tick on which the cancel keys and the confirmation/action key are
pressed together. -/
def bothTick : Tick :=
  { action := true, focused := none, geometry := default, area := default,
    elapsedSecs := 0, keys := [.Escape] }

/-- C5 counterexample — a session whose first tick grabs the root window
and whose second tick presses the cancel keys and the action key
together resolves with `Some(root)` rather than aborting with `None`:
the action-key guard is evaluated before the cancel check. -/
theorem select_cancel_confirm_counterexample :
    check_keys bothTick.keys = true ∧ bothTick.action = true ∧
    (select_window ⟨.root none, default, 30, 10, none⟩ none default
        [quietTick 0, bothTick]).resultOf = some (some rootXid) ∧
    some (some rootXid) ≠ some (none : Option Nat) :=
  ⟨rfl, rfl, rfl, by decide⟩

/-- C5 amended — the exit conditions are checked in the order
confirmation (the loop guard), then cancel, then timeout: a tick with
the action key pressed ends the loop at once with the current `xid`
(the current window if one was grabbed on an earlier tick, `None`
otherwise), even when the cancel keys are pressed in the same tick;
within the body, the cancel keys break with `xid = None` before the
timeout is consulted. -/
theorem select_exit_order (s : SelSettings) (g : Option Geo) (t : Tick)
    (ts : List Tick) (st : SelState) :
    (t.action = true →
      selLoop s (t :: ts) st = finishUp s st ∧
      (selLoop s (t :: ts) st).resultOf =
        some (if st.xid.isSome then some st.winXid else none)) ∧
    (check_keys t.keys = true → s.window = .root g →
      (selBody s t st).exitXid = some none) := by
  constructor
  · intro ha
    refine ⟨by simp [selLoop, ha], ?_⟩
    simp [selLoop, ha, finishUp, RunOut.resultOf]
  · intro hc hw
    simp only [selBody, selBodyOk, resolveXid, hw, hc, if_true]
    rfl

/-- Witness for C5 amended: with window 5 grabbed, a cancel+confirm tick
resolves with `Some 5`; a cancel-only tick breaks with `xid = None`. -/
theorem select_exit_order_witness :
    (selLoop ⟨.root none, default, 30, 10, none⟩ [bothTick] grabbedState =
        finishUp ⟨.root none, default, 30, 10, none⟩ grabbedState ∧
      (selLoop ⟨.root none, default, 30, 10, none⟩ [bothTick]
          grabbedState).resultOf =
        some (if (grabbedState.xid).isSome then some grabbedState.winXid
          else none)) ∧
    (selBody ⟨.root none, default, 30, 10, none⟩
        { quietTick 0 with keys := [.Escape] } grabbedState).exitXid =
      some none :=
  ⟨(select_exit_order ⟨.root none, default, 30, 10, none⟩ none bothTick []
      grabbedState).1 rfl,
    (select_exit_order ⟨.root none, default, 30, 10, none⟩ none
      { quietTick 0 with keys := [.Escape] } [] grabbedState).2 rfl rfl⟩

/-- C8 counterexample — a session whose first tick grabs the root window
and whose second tick presses the cancel keys aborts with `None` while
the key grab on the root window is still held: the abort sets `xid` to
`None` before `ungrab_keys(xid)` runs, so the grab is never released. -/
theorem select_grab_leak_counterexample :
    ((select_window ⟨.root none, default, 30, 10, some 0⟩ none default
        [quietTick 0, { quietTick 0 with keys := [.Escape] }]).finalOf).map
      SelState.grabs = some [rootXid] ∧
    some [rootXid] ≠ some ([] : List Nat) ∧
    (select_window ⟨.root none, default, 30, 10, some 0⟩ none default
        [quietTick 0, { quietTick 0 with keys := [.Escape] }]).resultOf =
      some none :=
  ⟨rfl, by decide, rfl⟩

/-- The selection-loop invariant: the held grabs are exactly the grab on
the `xid` window (if any), a grabbed `xid` is the current window, and
with no border configured nothing is ever drawn. -/
def SelInv (s : SelSettings) (st : SelState) : Prop :=
  st.grabs = (match st.xid with | some x => [x] | none => []) ∧
  (∀ x, st.xid = some x → x = st.winXid) ∧
  (s.border = none → st.borders = [])

/-- Clearing a window's area removes its border. -/
theorem contains_clearEffect (w : Nat) (l : List Nat) :
    (clearEffect w l).contains w = false := by
  simp [clearEffect]

/-- With no border configured, drawing is a no-op. -/
theorem drawEffect_none (s : SelSettings) (w : Nat) (b : List Nat)
    (hb : s.border = none) : drawEffect s w b = b := by
  simp [drawEffect, hb]

/-- With no border configured, the body never accumulates borders. -/
theorem areaPhase_borders_none (s : SelSettings) (t : Tick) (w : Nat)
    (st : SelState) (hb : s.border = none) (hsb : st.borders = []) :
    (areaPhase t w (drawPhase s t w st)).1.borders = [] := by
  simp only [areaPhase, drawPhase, drawEffect_none s w _ hb, hsb]
  split <;> rfl

/-- A `break` out of the selection loop always carries `xid = None`. -/
theorem selBody_exit_xid (s : SelSettings) (t : Tick) (st st' : SelState)
    (h : selBody s t st = .exit st') : st'.xid = none := by
  unfold selBody at h
  split at h
  · exact BodyOut.noConfusion h
  · rename_i w heq
    unfold selBodyOk at h
    by_cases hc : check_keys t.keys = true
    · rw [if_pos hc] at h
      injection h with h2
      rw [← h2]
    · rw [if_neg hc] at h
      by_cases ht : t.elapsedSecs > s.timeout
      · rw [if_pos ht] at h
        injection h with h2
        rw [← h2]
      · rw [if_neg ht] at h
        by_cases hsw : (areaPhase t w (drawPhase s t w st)).1.xid ≠ some w ∨
            (areaPhase t w (drawPhase s t w st)).2 = true
        · rw [if_pos hsw] at h
          exact BodyOut.noConfusion h
        · rw [if_neg hsw] at h
          exact BodyOut.noConfusion h

/-- The loop body preserves the selection-loop invariant on every
continuing step. -/
theorem selBody_next_inv (s : SelSettings) (t : Tick) (st st' : SelState)
    (hinv : SelInv s st) (h : selBody s t st = .next st') : SelInv s st' := by
  obtain ⟨hgr, hxw, hbn⟩ := hinv
  unfold selBody at h
  split at h
  · exact BodyOut.noConfusion h
  · rename_i w heq
    unfold selBodyOk at h
    by_cases hc : check_keys t.keys = true
    · rw [if_pos hc] at h
      exact BodyOut.noConfusion h
    · rw [if_neg hc] at h
      by_cases ht : t.elapsedSecs > s.timeout
      · rw [if_pos ht] at h
        exact BodyOut.noConfusion h
      · rw [if_neg ht] at h
        by_cases hsw : (areaPhase t w (drawPhase s t w st)).1.xid ≠ some w ∨
            (areaPhase t w (drawPhase s t w st)).2 = true
        · rw [if_pos hsw] at h
          injection h with h2
          subst h2
          refine ⟨?_, ?_, ?_⟩
          · show w :: ungrab_keys st.xid st.grabs = [w]
            rcases hx : st.xid with _ | x
            · rw [hx] at hgr
              simp [ungrab_keys, hgr]
            · rw [hx] at hgr
              simp [ungrab_keys, hgr]
          · intro x hx
            simp only [switchPhase, Option.some.injEq] at hx
            rw [← hx]
            rfl
          · intro hb
            show clearEffect w
              (areaPhase t w (drawPhase s t w st)).1.borders = []
            rw [areaPhase_borders_none s t w st hb (hbn hb)]
            rfl
        · rw [if_neg hsw] at h
          injection h with h2
          subst h2
          push_neg at hsw
          obtain ⟨hx, -⟩ := hsw
          have hxs : st.xid = some w := hx
          refine ⟨?_, ?_, ?_⟩
          · show st.grabs = _
            rw [hgr, hxs, hx]
          · intro x hx'
            have hx2 : st.xid = some x := hx'
            rw [hxs] at hx2
            simp only [Option.some.injEq] at hx2
            rw [← hx2]
            exact rfl
          · intro hb
            exact areaPhase_borders_none s t w st hb (hbn hb)

/-- A run of the post-loop code that returns a window releases the held
grab and leaves no border on that window. -/
theorem finishUp_releases (s : SelSettings) (st : SelState) (r : Option Nat)
    (st' : SelState) (w : Nat) (hinv : SelInv s st)
    (h : finishUp s st = .finished r st') (hr : r = some w) :
    st'.grabs = [] ∧ st'.borders.contains w = false := by
  obtain ⟨hgr, hxw, hbn⟩ := hinv
  unfold finishUp at h
  simp only [RunOut.finished.injEq] at h
  obtain ⟨h1, h2⟩ := h
  subst h2
  subst hr
  rcases hx : st.xid with _ | x
  · rw [hx] at h1
    simp at h1
  · rw [hx] at h1
    simp only [Option.isSome_some, if_true, Option.some.injEq] at h1
    rw [hx] at hgr
    constructor
    · show ungrab_keys (some x) st.grabs = []
      rw [hgr]
      simp [ungrab_keys]
    · show (if s.border.isSome = true then clearEffect st.winXid st.borders
          else st.borders).contains w = false
      rcases hb : s.border with _ | b
      · simp only [Option.isSome_none, Bool.false_eq_true, if_false]
        rw [hbn hb]
        rfl
      · simp only [Option.isSome_some, if_true]
        rw [← h1]
        exact contains_clearEffect st.winXid st.borders

/-- Over any trace, a selection loop that finishes with a window has
released every grab and cleared that window's border, given the
invariant at entry. -/
theorem selLoop_releases (s : SelSettings) (ticks : List Tick) :
    ∀ (st : SelState) (r : Option Nat) (st' : SelState) (w : Nat),
      SelInv s st → selLoop s ticks st = .finished r st' → r = some w →
      st'.grabs = [] ∧ st'.borders.contains w = false := by
  induction ticks with
  | nil =>
      intro st r st' w _ h _
      exact absurd h (by simp [selLoop])
  | cons t ts ih =>
      intro st r st' w hinv h hr
      unfold selLoop at h
      by_cases ha : t.action = true
      · rw [if_pos ha] at h
        exact finishUp_releases s st r st' w hinv h hr
      · rw [if_neg ha] at h
        rcases hb : selBody s t st with m | st2 | st2 <;> rw [hb] at h
        · exact absurd h (by simp)
        · have hx2 : st2.xid = none := selBody_exit_xid s t st st2 hb
          unfold finishUp at h
          simp only [RunOut.finished.injEq] at h
          obtain ⟨h1, -⟩ := h
          rw [hx2] at h1
          simp only [Option.isSome_none, if_false] at h1
          rw [← h1] at hr
          exact absurd hr (by simp)
        · exact ih st2 r st' w (selBody_next_inv s t st st2 hinv hb) h hr

/-- C8 amended — whenever `select_window` resolves with `Some(window)`,
every native key grab taken during the loop has been released and no
border remains drawn on the returned window; on a cancel or timeout
abort, however, the grab on the last candidate window is not released
(`ungrab_keys` is invoked with `None`, see the counterexample), and only
the final candidate's border is cleared. -/
theorem select_resolve_releases (s : SelSettings) (init : Option Nat)
    (g0 : Geo) (ticks : List Tick) (r : Option Nat) (st : SelState)
    (w : Nat) (hrun : select_window s init g0 ticks = .finished r st)
    (hres : r = some w) :
    st.grabs = [] ∧ st.borders.contains w = false := by
  unfold select_window at hrun
  rcases hr0 : resolveXid s init with m | w0 <;> rw [hr0] at hrun
  · exact absurd hrun (by simp)
  · refine selLoop_releases s ticks _ r st w ⟨rfl, ?_, fun _ => rfl⟩
      hrun hres
    intro x hx
    exact absurd hx (by simp)

/-- Witness for C8 amended at a concrete resolving session. -/
theorem select_resolve_releases_witness :
    (⟨some 1, ⟨0, 0, 0, 0⟩, 3, 1, ⟨0, 0, 0, 0⟩, [], [], 1⟩ :
      SelState).grabs = [] ∧
    (⟨some 1, ⟨0, 0, 0, 0⟩, 3, 1, ⟨0, 0, 0, 0⟩, [], [], 1⟩ :
      SelState).borders.contains 1 = false :=
  select_resolve_releases ⟨.root none, default, 30, 10, none⟩ none default
    [quietTick 0, bothTick] (some 1)
    ⟨some 1, ⟨0, 0, 0, 0⟩, 3, 1, ⟨0, 0, 0, 0⟩, [], [], 1⟩ 1 rfl rfl

end Menyoki

